import Mathlib

/-!
# Verification of the Random3Dcity parametric building-geometry engine

This file gives a shallow embedding, in Lean 4, of the geometric core of
`generateCityGML.py` from the Random3Dcity repository, and proves (or refutes)
the frozen specification claims about it.

Conventions of the embedding:
* Python floats are modelled as rationals (`ℚ`); the geometry uses only
  field arithmetic, so rational arithmetic is exact where floating point is
  approximate.
* Python strings holding GML point lists are modelled either as Lean
  `String`s (built by a deterministic formatter `fmtQ`, standing for Python's
  `"%s" %` formatting of a float) or, for the string-parsing round-trip
  functions, as `List Char` (`PyStr`), which makes Python's
  whitespace-`split()` directly definable by structural recursion.
* A linear ring, which the Python code represents as one space-separated
  string of point texts, is modelled as the list of its point texts
  (`Ring := List String`); the emitted `posList` is its space-join, so
  "first point literally repeated as last with identical text" is
  `head? = getLast?` on the list.
* Python exceptions (`ValueError`, `IndexError`, `UnboundLocalError`,
  `AssertionError`) are modelled with `Except String`.
-/

namespace R3C

/-- A 3D point with exact (rational) coordinates, modelling a Python
`(float, float, float)` triple. -/
abbrev Pt := ℚ × ℚ × ℚ

/-- Deterministic rendering of one coordinate, modelling Python's `"%s" % v`
for a float `v`.  The claims about ring closure only need that the rendering
is a function of the value, which any fixed formatter provides. -/
def fmtQ (q : ℚ) : String := toString q

/-- `GMLPointList` of `generateCityGML.py` (line 427) applied to a numeric
point: renders `"%s %s %s" % (x, y, z)`. -/
def GMLPointListQ (point : Pt) : String :=
  fmtQ point.1 ++ " " ++ fmtQ point.2.1 ++ " " ++ fmtQ point.2.2

/-- The height-mode adjustment performed at the top of `verticesBody`
(lines 167-177): `h` defaults to `0` when absent or zero (`if not h`),
a truthy `top < 1.5` scales the rise into the eave height, a truthy
`override` (only consulted when `top is None`) replaces the height, and
otherwise the rise is added. -/
def effectiveZ (z : ℚ) (h top override : Option ℚ) : ℚ :=
  let hv := h.getD 0
  match top with
  | some t => if t ≠ 0 then (if t < 3/2 then z + t * hv else z) else z
  | none =>
    match override with
    | some ov => if ov ≠ 0 then ov else z + hv
    | none => z + hv

/-- The eight numeric corner points computed by `verticesBody`
(`generateCityGML.py` lines 165-197): corners 0-3 are the floor ring
(SW, SE, NE, NW) and corners 4-7 the ring at the effective height. -/
def verticesBodyPts (o : Pt) (x y z : ℚ) (h top override : Option ℚ) : List Pt :=
  let z' := effectiveZ z h top override
  [ (o.1,     o.2.1,     o.2.2),
    (o.1 + x, o.2.1,     o.2.2),
    (o.1 + x, o.2.1 + y, o.2.2),
    (o.1,     o.2.1 + y, o.2.2),
    (o.1,     o.2.1,     o.2.2 + z'),
    (o.1 + x, o.2.1,     o.2.2 + z'),
    (o.1 + x, o.2.1 + y, o.2.2 + z'),
    (o.1,     o.2.1 + y, o.2.2 + z') ]

/-- `verticesBody` as the source returns it: the eight corners rendered as
`"%s %s %s"` strings. -/
def verticesBody (o : Pt) (x y z : ℚ) (h top override : Option ℚ) : List String :=
  (verticesBodyPts o x y z h top override).map GMLPointListQ

/-- The numeric ridge points computed by `verticesRoof`
(`generateCityGML.py` lines 228-252); `h` defaults to `0` when absent or
zero (`if not h`), and an unrecognized roof type yields the empty list
(`r` is returned unfilled). -/
def verticesRoofPts (o : Pt) (x y z : ℚ) (h : Option ℚ) (rtype : String)
    (width : Option ℚ) : List Pt :=
  let hv := h.getD 0
  if rtype = "Gabled" then
    [ (o.1 + (1/2) * x, o.2.1,     o.2.2 + z + hv),
      (o.1 + (1/2) * x, o.2.1 + y, o.2.2 + z + hv) ]
  else if rtype = "Shed" then
    [ (o.1, o.2.1,     o.2.2 + z + hv),
      (o.1, o.2.1 + y, o.2.2 + z + hv) ]
  else if rtype = "Hipped" ∨ rtype = "Pyramidal" then
    [ (o.1 + (1/2) * x, o.2.1 + width.getD 0,     o.2.2 + z + hv),
      (o.1 + (1/2) * x, o.2.1 + y - width.getD 0, o.2.2 + z + hv) ]
  else []

/-- `verticesRoof` as the source returns it: rendered point strings. -/
def verticesRoof (o : Pt) (x y z : ℚ) (h : Option ℚ) (rtype : String)
    (width : Option ℚ) : List String :=
  (verticesRoofPts o x y z h rtype width).map GMLPointListQ

/-- A linear ring: the ordered list of point texts whose space-join is the
emitted `posList` string. -/
abbrev Ring := List String

/-- The closure property of a ring: its first point text is literally its
last point text. -/
def ringClosed (r : Ring) : Prop := r.head? = r.getLast?

/-- The result quadruple of `verticesOverhangs` (line 396):
overhang rings, their optional interior rings, the corrected eave
elevation, and the (possibly recalculated) y-overhang. -/
structure OverhangResult where
  overhangs : List Ring
  interior : List (Option Ring)
  eaves : ℚ
  ovhyRecalculated : ℚ
  deriving DecidableEq, Repr

/-- `verticesOverhangs` (`generateCityGML.py` lines 255-396).  Inputs: the
box `b = (o, x, y, z)`, the eight corner strings `p`, the rise `h`, the roof
type, the overhang lengths `(ovhx, ovhy)`, the two ridge-point strings
`r0, r1` (unused by the `Flat` branch, where the source leaves them
unbound), and the ridge-to-eave `width` of hipped roofs.  A roof type
matching no branch leaves the local variable `eaves` unassigned, so the
`return` raises `UnboundLocalError`; this is the `.error` case. -/
def verticesOverhangs (o : Pt) (x y z h : ℚ) (rtype : String)
    (ovhx ovhy : ℚ) (p : Fin 8 → String) (r0 r1 : String) (width : ℚ) :
    Except String OverhangResult :=
  if rtype = "Gabled" then
    let ovhz : ℚ := if ovhx > 0 then h / (((1/2) * x) / ovhx) else 0
    let ovh0 : Ring :=
      [ r0,
        GMLPointListQ (o.1 + (1/2) * x, o.2.1 - ovhy, o.2.2 + z + h),
        GMLPointListQ (o.1 + x + ovhx, o.2.1 - ovhy, o.2.2 + z - ovhz),
        GMLPointListQ (o.1 + x + ovhx, o.2.1 + y + ovhy, o.2.2 + z - ovhz),
        GMLPointListQ (o.1 + (1/2) * x, o.2.1 + y + ovhy, o.2.2 + z + h),
        r1, p 6, p 5, r0 ]
    let ovh1 : Ring :=
      [ r1,
        GMLPointListQ (o.1 + (1/2) * x, o.2.1 + y + ovhy, o.2.2 + z + h),
        GMLPointListQ (o.1 - ovhx, o.2.1 + y + ovhy, o.2.2 + z - ovhz),
        GMLPointListQ (o.1 - ovhx, o.2.1 - ovhy, o.2.2 + z - ovhz),
        GMLPointListQ (o.1 + (1/2) * x, o.2.1 - ovhy, o.2.2 + z + h),
        r0, p 4, p 7, r1 ]
    .ok ⟨[ovh0, ovh1], [none, none], o.2.2 + z - ovhz, ovhy⟩
  else if rtype = "Shed" then
    let ovhz : ℚ := if ovhx > 0 then h / (x / ovhx) else 0
    let ovh0 : Ring :=
      [ GMLPointListQ (o.1 - ovhx, o.2.1 - ovhy, o.2.2 + z + h + ovhz),
        GMLPointListQ (o.1 + x + ovhx, o.2.1 - ovhy, o.2.2 + z - ovhz),
        GMLPointListQ (o.1 + x + ovhx, o.2.1 + y + ovhy, o.2.2 + z - ovhz),
        GMLPointListQ (o.1 - ovhx, o.2.1 + y + ovhy, o.2.2 + z + h + ovhz),
        GMLPointListQ (o.1 - ovhx, o.2.1 - ovhy, o.2.2 + z + h + ovhz) ]
    let int0 : Ring := [r0, r1, p 6, p 5, r0]
    .ok ⟨[ovh0], [some int0], o.2.2 + z - ovhz, ovhy⟩
  else if rtype = "Hipped" ∨ rtype = "Pyramidal" then
    let ovhz : ℚ := if ovhx > 0 then h / (((1/2) * x) / ovhx) else 0
    -- in this branch the source computes `fy = h / ovhz; ovhy = width / fy`
    -- with the just-assigned `ovhz = h / fx`; the value is inlined here
    let ovhy' : ℚ :=
      if ovhx > 0 then width / (h / (h / (((1/2) * x) / ovhx))) else 0
    let ovh0 : Ring :=
      [ GMLPointListQ (o.1 - ovhx, o.2.1 - ovhy', o.2.2 + z - ovhz),
        GMLPointListQ (o.1 + x + ovhx, o.2.1 - ovhy', o.2.2 + z - ovhz),
        p 5, p 4,
        GMLPointListQ (o.1 - ovhx, o.2.1 - ovhy', o.2.2 + z - ovhz) ]
    let ovh1 : Ring :=
      [ GMLPointListQ (o.1 + x + ovhx, o.2.1 - ovhy', o.2.2 + z - ovhz),
        GMLPointListQ (o.1 + x + ovhx, o.2.1 + y + ovhy', o.2.2 + z - ovhz),
        p 6, p 5,
        GMLPointListQ (o.1 + x + ovhx, o.2.1 - ovhy', o.2.2 + z - ovhz) ]
    let ovh2 : Ring :=
      [ GMLPointListQ (o.1 - ovhx, o.2.1 + y + ovhy', o.2.2 + z - ovhz),
        p 7, p 6,
        GMLPointListQ (o.1 + x + ovhx, o.2.1 + y + ovhy', o.2.2 + z - ovhz),
        GMLPointListQ (o.1 - ovhx, o.2.1 + y + ovhy', o.2.2 + z - ovhz) ]
    let ovh3 : Ring :=
      [ GMLPointListQ (o.1 - ovhx, o.2.1 - ovhy', o.2.2 + z - ovhz),
        p 4, p 7,
        GMLPointListQ (o.1 - ovhx, o.2.1 + y + ovhy', o.2.2 + z - ovhz),
        GMLPointListQ (o.1 - ovhx, o.2.1 - ovhy', o.2.2 + z - ovhz) ]
    .ok ⟨[ovh0, ovh1, ovh2, ovh3], [none, none, none, none],
         o.2.2 + z - ovhz, ovhy'⟩
  else if rtype = "Flat" then
    let ovh0 : Ring :=
      [ GMLPointListQ (o.1 - ovhx, o.2.1 - ovhy, o.2.2 + z),
        GMLPointListQ (o.1 + x + ovhx, o.2.1 - ovhy, o.2.2 + z),
        GMLPointListQ (o.1 + x + ovhx, o.2.1 + y + ovhy, o.2.2 + z),
        GMLPointListQ (o.1 - ovhx, o.2.1 + y + ovhy, o.2.2 + z),
        GMLPointListQ (o.1 - ovhx, o.2.1 - ovhy, o.2.2 + z) ]
    let int0 : Ring := [p 4, p 7, p 6, p 5, p 4]
    .ok ⟨[ovh0], [some int0], o.2.2 + z, ovhy⟩
  else
    .error "UnboundLocalError: local variable referenced before assignment"

/-- The rings built by `flatRoof` (`generateCityGML.py` lines 1245-1257)
when no building-part wall override is active: top face and the four wall
faces, each a quad whose first corner is repeated last. -/
def flatRoofRings (p : Fin 8 → String) : List Ring :=
  [ [p 4, p 5, p 6, p 7, p 4],
    [p 0, p 1, p 5, p 4, p 0],
    [p 5, p 1, p 2, p 6, p 5],
    [p 2, p 3, p 7, p 6, p 2],
    [p 3, p 0, p 4, p 7, p 3] ]

/-- The rings built by `gabledRoof` (lines 805-818): two roof slopes, the
two gable walls (six points) and the two long walls. -/
def gabledRoofRings (p : Fin 8 → String) (r0 r1 : String) : List Ring :=
  [ [r0, r1, p 7, p 4, r0],
    [r1, r0, p 5, p 6, r1],
    [p 4, p 0, p 1, p 5, r0, p 4],
    [p 5, p 1, p 2, p 6, p 5],
    [p 6, p 2, p 3, p 7, r1, p 6],
    [p 7, p 3, p 0, p 4, p 7] ]

/-- The rings built by `shedRoof` (lines 910-922). -/
def shedRoofRings (p : Fin 8 → String) (r0 r1 : String) : List Ring :=
  [ [r1, r0, p 5, p 6, r1],
    [r0, p 0, p 1, p 5, r0],
    [p 5, p 1, p 2, p 6, p 5],
    [p 6, p 2, p 3, r1, p 6],
    [r1, p 3, p 0, r0, r1] ]

/-- The rings built by `hippedRoof` (lines 1004-1024); a pyramidal roof has
`r[0] == r[1]` and its two long slopes degenerate to triangles. -/
def hippedRoofRings (p : Fin 8 → String) (r0 r1 : String) : List Ring :=
  (if r0 = r1 then
    [ [r0, p 7, p 4, r0],
      [r1, p 5, p 6, r1] ]
  else
    [ [r0, r1, p 7, p 4, r0],
      [r1, r0, p 5, p 6, r1] ]) ++
  [ [r0, p 4, p 5, r0],
    [r1, p 6, p 7, r1],
    [p 0, p 1, p 5, p 4, p 0],
    [p 5, p 1, p 2, p 6, p 5],
    [p 2, p 3, p 7, p 6, p 2],
    [p 3, p 0, p 4, p 7, p 3] ]

/-- The extended east-wall and ground rings traced around a building part,
plus the part's own side and top rings, as assembled into `east_faces` by
`CityGMLbuildingLOD2Semantics` (lines 3352-3384): `bp` are the part's eight
corner strings. -/
def eastFacesRings (p bp : Fin 8 → String) : List Ring :=
  [ [p 1, bp 0, bp 4, bp 7, bp 3, p 2, p 6, p 5, p 1],
    [p 0, p 3, p 2, bp 3, bp 2, bp 1, bp 0, p 1, p 0],
    [bp 0, bp 1, bp 5, bp 4, bp 0],
    [bp 1, bp 2, bp 6, bp 5, bp 1],
    [bp 3, bp 7, bp 6, bp 2, bp 3],
    [bp 4, bp 5, bp 6, bp 7, bp 4] ]

/-- The ground ring `faceBottom` built when no building part is present
(line 3384). -/
def groundRing (p : Fin 8 → String) : Ring :=
  [p 0, p 3, p 2, p 1, p 0]

/-- `openingRing` (`generateCityGML.py` lines 1347-1382): the rectangular
opening ring of a door/window with local origin `(X, Y)` and size
`(width, height)` on wall `wall` of the box whose numeric corners are `p`;
a wall index other than 0-3 raises
`ValueError("The door is positioned on an unknown wall.")`. -/
def openingRing (wall : ℤ) (X Y width height : ℚ) (p : Fin 8 → Pt) :
    Except String Ring :=
  if wall = 0 then
    .ok [ GMLPointListQ ((p 0).1 + X, (p 0).2.1, (p 0).2.2 + Y),
          GMLPointListQ ((p 0).1 + X, (p 0).2.1, (p 0).2.2 + Y + height),
          GMLPointListQ ((p 0).1 + X + width, (p 0).2.1, (p 0).2.2 + Y + height),
          GMLPointListQ ((p 0).1 + X + width, (p 0).2.1, (p 0).2.2 + Y),
          GMLPointListQ ((p 0).1 + X, (p 0).2.1, (p 0).2.2 + Y) ]
  else if wall = 1 then
    .ok [ GMLPointListQ ((p 1).1, (p 1).2.1 + X, (p 1).2.2 + Y),
          GMLPointListQ ((p 1).1, (p 1).2.1 + X, (p 1).2.2 + Y + height),
          GMLPointListQ ((p 1).1, (p 1).2.1 + X + width, (p 1).2.2 + Y + height),
          GMLPointListQ ((p 1).1, (p 1).2.1 + X + width, (p 1).2.2 + Y),
          GMLPointListQ ((p 1).1, (p 1).2.1 + X, (p 1).2.2 + Y) ]
  else if wall = 2 then
    .ok [ GMLPointListQ ((p 2).1 - X, (p 2).2.1, (p 2).2.2 + Y),
          GMLPointListQ ((p 2).1 - X, (p 2).2.1, (p 2).2.2 + Y + height),
          GMLPointListQ ((p 2).1 - X - width, (p 2).2.1, (p 2).2.2 + Y + height),
          GMLPointListQ ((p 2).1 - X - width, (p 2).2.1, (p 2).2.2 + Y),
          GMLPointListQ ((p 2).1 - X, (p 2).2.1, (p 2).2.2 + Y) ]
  else if wall = 3 then
    .ok [ GMLPointListQ ((p 3).1, (p 3).2.1 - X, (p 3).2.2 + Y),
          GMLPointListQ ((p 3).1, (p 3).2.1 - X, (p 3).2.2 + Y + height),
          GMLPointListQ ((p 3).1, (p 3).2.1 - X - width, (p 3).2.2 + Y + height),
          GMLPointListQ ((p 3).1, (p 3).2.1 - X - width, (p 3).2.2 + Y),
          GMLPointListQ ((p 3).1, (p 3).2.1 - X, (p 3).2.2 + Y) ]
  else
    .error "ValueError: The door is positioned on an unknown wall."

/-- The per-opening core of `embrasuresGeometry`
(`generateCityGML.py` lines 1405-1499): the four outer wall-plane corners
`W0..W3` and the four inset corners `O0..O3` of one opening, assembled into
the inset opening ring `ringW` and the four reveal rings `ring0..ring3`;
a wall index other than 0-3 raises `ValueError`. -/
def embrasureRings (wall : ℤ) (X Y width height embrasure : ℚ)
    (p : Fin 8 → Pt) : Except String (List Ring) :=
  let mk : Pt → Pt → Pt → Pt → Pt → Pt → Pt → Pt → List Ring := fun w0 w1 w2 w3 o0 o1 o2 o3 =>
    let W0 := GMLPointListQ w0
    let W1 := GMLPointListQ w1
    let W2 := GMLPointListQ w2
    let W3 := GMLPointListQ w3
    let O0 := GMLPointListQ o0
    let O1 := GMLPointListQ o1
    let O2 := GMLPointListQ o2
    let O3 := GMLPointListQ o3
    [ [O0, O1, O2, O3, O0],
      [W0, O0, O3, W3, W0],
      [W0, W1, O1, O0, W0],
      [W2, O2, O1, W1, W2],
      [W2, W3, O3, O2, W2] ]
  if wall = 0 then
    .ok (mk ((p 0).1 + X, (p 0).2.1, (p 0).2.2 + Y)
            ((p 0).1 + X + width, (p 0).2.1, (p 0).2.2 + Y)
            ((p 0).1 + X + width, (p 0).2.1, (p 0).2.2 + Y + height)
            ((p 0).1 + X, (p 0).2.1, (p 0).2.2 + Y + height)
            ((p 0).1 + X, (p 0).2.1 + embrasure, (p 0).2.2 + Y)
            ((p 0).1 + X + width, (p 0).2.1 + embrasure, (p 0).2.2 + Y)
            ((p 0).1 + X + width, (p 0).2.1 + embrasure, (p 0).2.2 + Y + height)
            ((p 0).1 + X, (p 0).2.1 + embrasure, (p 0).2.2 + Y + height))
  else if wall = 1 then
    .ok (mk ((p 1).1, (p 1).2.1 + X, (p 1).2.2 + Y)
            ((p 1).1, (p 1).2.1 + X + width, (p 1).2.2 + Y)
            ((p 1).1, (p 1).2.1 + X + width, (p 1).2.2 + Y + height)
            ((p 1).1, (p 1).2.1 + X, (p 1).2.2 + Y + height)
            ((p 1).1 - embrasure, (p 1).2.1 + X, (p 1).2.2 + Y)
            ((p 1).1 - embrasure, (p 1).2.1 + X + width, (p 1).2.2 + Y)
            ((p 1).1 - embrasure, (p 1).2.1 + X + width, (p 1).2.2 + Y + height)
            ((p 1).1 - embrasure, (p 1).2.1 + X, (p 1).2.2 + Y + height))
  else if wall = 2 then
    .ok (mk ((p 2).1 - X, (p 2).2.1, (p 2).2.2 + Y)
            ((p 2).1 - X - width, (p 2).2.1, (p 2).2.2 + Y)
            ((p 2).1 - X - width, (p 2).2.1, (p 2).2.2 + Y + height)
            ((p 2).1 - X, (p 2).2.1, (p 2).2.2 + Y + height)
            ((p 2).1 - X, (p 2).2.1 - embrasure, (p 2).2.2 + Y)
            ((p 2).1 - X - width, (p 2).2.1 - embrasure, (p 2).2.2 + Y)
            ((p 2).1 - X - width, (p 2).2.1 - embrasure, (p 2).2.2 + Y + height)
            ((p 2).1 - X, (p 2).2.1 - embrasure, (p 2).2.2 + Y + height))
  else if wall = 3 then
    .ok (mk ((p 3).1, (p 3).2.1 - X, (p 3).2.2 + Y)
            ((p 3).1, (p 3).2.1 - X - width, (p 3).2.2 + Y)
            ((p 3).1, (p 3).2.1 - X - width, (p 3).2.2 + Y + height)
            ((p 3).1, (p 3).2.1 - X, (p 3).2.2 + Y + height)
            ((p 3).1 + embrasure, (p 3).2.1 - X, (p 3).2.2 + Y)
            ((p 3).1 + embrasure, (p 3).2.1 - X - width, (p 3).2.2 + Y)
            ((p 3).1 + embrasure, (p 3).2.1 - X - width, (p 3).2.2 + Y + height)
            ((p 3).1 + embrasure, (p 3).2.1 - X, (p 3).2.2 + Y + height))
  else
    .error "ValueError: The door is positioned on an unknown wall."

/-- The rings built by `gabledAttic` (`generateCityGML.py` lines
1148-1161): the inset attic shell over the interior rectangle
`[Xa,Xb]×[Ya,Yb]` at floor elevation `fel`, with the ridge points `r0, r1`
pulled in by the wall thickness and lowered to ceiling elevation `cel`. -/
def gabledAtticRings (Xa Ya Xb Yb fel cel wallThickness : ℚ) (r0 r1 : Pt) :
    List Ring :=
  let rA := GMLPointListQ (r0.1, r0.2.1 + wallThickness, cel)
  let rB := GMLPointListQ (r1.1, r1.2.1 - wallThickness, cel)
  let p0F := GMLPointListQ (Xa, Ya, fel)
  let p1F := GMLPointListQ (Xb, Ya, fel)
  let p2F := GMLPointListQ (Xb, Yb, fel)
  let p3F := GMLPointListQ (Xa, Yb, fel)
  [ [p0F, p1F, rA, p0F],
    [p1F, p2F, rB, rA, p1F],
    [p2F, p3F, rB, p2F],
    [p3F, p0F, rA, rB, p3F],
    [p0F, p3F, p2F, p1F, p0F] ]

/-- The rings built by `hippedAttic` (lines 1119-1132); identical ring
shapes to the gabled attic. -/
def hippedAtticRings (Xa Ya Xb Yb fel cel wallThickness : ℚ) (r0 r1 : Pt) :
    List Ring :=
  let rA := GMLPointListQ (r0.1, r0.2.1 + wallThickness, cel)
  let rB := GMLPointListQ (r1.1, r1.2.1 - wallThickness, cel)
  let p0F := GMLPointListQ (Xa, Ya, fel)
  let p1F := GMLPointListQ (Xb, Ya, fel)
  let p2F := GMLPointListQ (Xb, Yb, fel)
  let p3F := GMLPointListQ (Xa, Yb, fel)
  [ [p0F, p1F, rA, p0F],
    [p1F, p2F, rB, rA, p1F],
    [p2F, p3F, rB, p2F],
    [p3F, p0F, rA, rB, p3F],
    [p0F, p3F, p2F, p1F, p0F] ]

/-- The rings built by `pyramidalAttic` (lines 1178-1190): four triangles
meeting at the apex `rA`, plus the bottom. -/
def pyramidalAtticRings (Xa Ya Xb Yb fel cel : ℚ) (r0 : Pt) : List Ring :=
  let rA := GMLPointListQ (r0.1, r0.2.1, cel)
  let p0F := GMLPointListQ (Xa, Ya, fel)
  let p1F := GMLPointListQ (Xb, Ya, fel)
  let p2F := GMLPointListQ (Xb, Yb, fel)
  let p3F := GMLPointListQ (Xa, Yb, fel)
  [ [p0F, p3F, p2F, p1F, p0F],
    [p0F, p1F, rA, p0F],
    [p1F, p2F, rA, p1F],
    [p2F, p3F, rA, p2F],
    [p3F, p0F, rA, p3F] ]

/-- The rings built by `shedAttic` (lines 1211-1224). -/
def shedAtticRings (Xa Ya Xb Yb fel cel wallThickness : ℚ) (r0 r1 : Pt) :
    List Ring :=
  let rA := GMLPointListQ (r0.1 + wallThickness, r0.2.1 + wallThickness, cel)
  let rB := GMLPointListQ (r1.1 + wallThickness, r1.2.1 - wallThickness, cel)
  let p0F := GMLPointListQ (Xa, Ya, fel)
  let p1F := GMLPointListQ (Xb, Ya, fel)
  let p2F := GMLPointListQ (Xb, Yb, fel)
  let p3F := GMLPointListQ (Xa, Yb, fel)
  [ [p0F, p3F, p2F, p1F, p0F],
    [rA, p1F, p2F, rB, rA],
    [p0F, p1F, rA, p0F],
    [p2F, p3F, rB, p2F],
    [p0F, rA, rB, p3F, p0F] ]

/-- The eight corner points of the storey slab built for storey `floor` by
`CityGMLbuildingInteriorLOD2` (lines 3986-4017), in source order
`p0F, p0C, p1F, p1C, p2F, p2C, p3F, p3C`: floor elevation
`(floor-1)·floorHeight + joist/2`, ceiling elevation
`floor·floorHeight - joist/2`, horizontal extent the footprint inset by the
wall thickness. -/
def interiorSlab (o : Pt) (x y floorHeight wallThickness joist : ℚ)
    (floor : ℕ) : List Pt :=
  let Xa := o.1 + wallThickness
  let Xb := o.1 + x - wallThickness
  let Ya := o.2.1 + wallThickness
  let Yb := o.2.1 + y - wallThickness
  let fel := ((floor : ℚ) - 1) * floorHeight + (1/2) * joist
  let cel := (floor : ℚ) * floorHeight - (1/2) * joist
  [ (Xa, Ya, fel), (Xa, Ya, cel),
    (Xb, Ya, fel), (Xb, Ya, cel),
    (Xb, Yb, fel), (Xb, Yb, cel),
    (Xa, Yb, fel), (Xa, Yb, cel) ]

/-- The per-storey loop of `CityGMLbuildingInteriorLOD2` (line 3997,
`for floor in range(1, int(floors) + 1)`): one slab solid per storey. -/
def interiorSlabs (o : Pt) (x y floorHeight wallThickness joist : ℚ)
    (floors : ℕ) : List (List Pt) :=
  (List.range floors).map
    (fun k => interiorSlab o x y floorHeight wallThickness joist (k + 1))

/-- The six rings of one storey slab solid in the default (no building
part) branch of `CityGMLbuildingInteriorLOD2` (lines 4071-4086). -/
def slabRings (p0F p1F p2F p3F p0C p1C p2C p3C : String) : List Ring :=
  [ [p0F, p3F, p2F, p1F, p0F],
    [p0C, p1C, p2C, p3C, p0C],
    [p1F, p2F, p2C, p1C, p1F],
    [p0F, p1F, p1C, p0C, p0F],
    [p2F, p3F, p3C, p2C, p2F],
    [p3F, p0F, p0C, p3C, p3F] ]

/-- `rotator` (`generateCityGML.py` lines 4285-4291): 2D rotation of the
`(x, y)` coordinates of a vertex about `origin_of_rotation`, with the sine
and cosine precomputed by the caller; the `z` coordinate is copied. -/
def rotator (vertex : Pt) (sine cos : ℚ) (origin : ℚ × ℚ) : Pt :=
  ( (vertex.1 - origin.1) * cos - (vertex.2.1 - origin.2) * sine + origin.1,
    (vertex.1 - origin.1) * sine + (vertex.2.1 - origin.2) * cos + origin.2,
    vertex.2.2 )

/-- A numeric vertex in the making: either still the initial empty list
`[]`, or the filled `[cx, cy, cz]`. -/
abbrev RawVtx := List ℚ

/-- The vertex list `d` of one chimney as filled by `chimneyVertices`
(`generateCityGML.py` lines 687-774), listed in index order `d[0] .. d[7]`.
It starts as eight empty lists; only a handled `(roof type, side)` branch
fills it.  Handled branches: `Gabled`/`Hipped`/`Pyramidal` with side 1 or 3,
`Shed` and `Flat` with side 1.  The chimney has local origin
`(originX, originY)`, size `(sizeX, sizeY, chHeight)`; `p` are the numeric
box corners, `h` the roof rise, `x` the building width. -/
def chimneyD (rtype : String) (side : ℤ) (p : Fin 8 → Pt)
    (originX originY sizeX sizeY chHeight h x : ℚ) : List RawVtx :=
  let empty8 : List RawVtx := [[], [], [], [], [], [], [], []]
  let sideFill : ℚ → ℚ → ℚ → ℚ → List RawVtx :=
    -- the common fill pattern of the `side == 1` branches
    fun xper xper2 zper1 zper2 =>
      [ [(p 1).1 - xper2, (p 1).2.1 + originX, (p 5).2.2 + zper2],
        [(p 1).1 - xper, (p 1).2.1 + originX, (p 5).2.2 + zper1],
        [(p 1).1 - xper, (p 1).2.1 + originX + sizeX, (p 5).2.2 + zper1],
        [(p 1).1 - xper2, (p 1).2.1 + originX + sizeX, (p 5).2.2 + zper2],
        [(p 1).1 - xper, (p 1).2.1 + originX, (p 5).2.2 + zper2 + chHeight],
        [(p 1).1 - xper, (p 1).2.1 + originX + sizeX, (p 5).2.2 + zper2 + chHeight],
        [(p 1).1 - xper2, (p 1).2.1 + originX + sizeX, (p 5).2.2 + zper2 + chHeight],
        [(p 1).1 - xper2, (p 1).2.1 + originX, (p 5).2.2 + zper2 + chHeight] ]
  let sideFill3 : ℚ → ℚ → ℚ → ℚ → List RawVtx :=
    -- the common fill pattern of the `side == 3` branches
    fun xper xper2 zper1 zper2 =>
      [ [(p 4).1 + xper2, (p 7).2.1 - originX, (p 5).2.2 + zper2],
        [(p 4).1 + xper, (p 7).2.1 - originX, (p 5).2.2 + zper1],
        [(p 4).1 + xper, (p 7).2.1 - originX - sizeX, (p 5).2.2 + zper1],
        [(p 4).1 + xper2, (p 7).2.1 - originX - sizeX, (p 5).2.2 + zper2],
        [(p 4).1 + xper, (p 7).2.1 - originX, (p 5).2.2 + zper2 + chHeight],
        [(p 4).1 + xper, (p 7).2.1 - originX - sizeX, (p 5).2.2 + zper2 + chHeight],
        [(p 4).1 + xper2, (p 7).2.1 - originX - sizeX, (p 5).2.2 + zper2 + chHeight],
        [(p 4).1 + xper2, (p 7).2.1 - originX, (p 5).2.2 + zper2 + chHeight] ]
  if rtype = "Gabled" then
    let xper := originY
    let xper2 := sizeY + xper
    let zper1 := xper * h / (x * (1/2))
    let zper2 := xper2 * h / (x * (1/2))
    if side = 1 then sideFill xper xper2 zper1 zper2
    else if side = 3 then sideFill3 xper xper2 zper1 zper2
    else empty8
  else if rtype = "Shed" then
    let xper := originY
    let xper2 := sizeY + xper
    let zper1 := xper * h / x
    let zper2 := xper2 * h / x
    if side = 1 then sideFill xper xper2 zper1 zper2 else empty8
  else if rtype = "Hipped" ∨ rtype = "Pyramidal" then
    let xper := originY
    let xper2 := sizeY + xper
    let zper1 := xper * h / (x * (1/2))
    let zper2 := xper2 * h / (x * (1/2))
    if side = 1 then sideFill xper xper2 zper1 zper2
    else if side = 3 then sideFill3 xper xper2 zper1 zper2
    else empty8
  else if rtype = "Flat" then
    let xper := originY
    let xper2 := sizeY + xper
    if side = 1 then
      [ [(p 1).1 - xper2, (p 1).2.1 + originX, (p 5).2.2],
        [(p 1).1 - xper, (p 1).2.1 + originX, (p 5).2.2],
        [(p 1).1 - xper, (p 1).2.1 + originX + sizeX, (p 5).2.2],
        [(p 1).1 - xper2, (p 1).2.1 + originX + sizeX, (p 5).2.2],
        [(p 1).1 - xper, (p 1).2.1 + originX, (p 5).2.2 + chHeight],
        [(p 1).1 - xper, (p 1).2.1 + originX + sizeX, (p 5).2.2 + chHeight],
        [(p 1).1 - xper2, (p 1).2.1 + originX + sizeX, (p 5).2.2 + chHeight],
        [(p 1).1 - xper2, (p 1).2.1 + originX, (p 5).2.2 + chHeight] ]
    else empty8
  else empty8

/-- The comparison template of the guard at line 776 of
`generateCityGML.py`: `if d != [[], [], [], [], [], []]` — six empty
lists, although `d` has eight entries. -/
def emptyTemplate6 : List RawVtx := [[], [], [], [], [], []]

/-- `GMLPointList` (lines 427-432) on a raw numeric vertex: accessing
`point[0]` of an empty (or too short) list raises `IndexError`. -/
def GMLPointListE (point : RawVtx) : Except String String :=
  match point with
  | a :: b :: c :: _ => .ok (fmtQ a ++ " " ++ fmtQ b ++ " " ++ fmtQ c)
  | _ => .error "IndexError: list index out of range"

/-- The rendering loop `for i in range(0, 8): dGML[i] = GMLPointList(d[i])`
(lines 777-780): renders the vertices in order, stopping at the first
`IndexError`. -/
def renderAll : List RawVtx → Except String (List String)
  | [] => .ok []
  | v :: vs => do
      let g ← GMLPointListE v
      let rest ← renderAll vs
      pure (g :: rest)

/-- The guard-and-render step of `chimneyVertices` (lines 776-780): when
`d` differs from the six-empty-list template, every one of its eight
entries is passed to `GMLPointList`; otherwise nothing is rendered. -/
def chimneyGMLs (d : List RawVtx) : Except String (List String) :=
  if d = emptyTemplate6 then .ok [] else renderAll d

/-- One chimney processed end to end by `chimneyVertices`: fill `d`
according to the roof type and side, then apply the guard and render. -/
def chimneyProcess (rtype : String) (side : ℤ) (p : Fin 8 → Pt)
    (originX originY sizeX sizeY chHeight h x : ℚ) :
    Except String (List String) :=
  chimneyGMLs (chimneyD rtype side p originX originY sizeX sizeY chHeight h x)

/-- The roof-type dispatch of `CityGMLbuildingLOD2Semantics`
(`generateCityGML.py` lines 3260-3271 and 3386-3408), for a building
without building part: computes the body corners and ridge points, runs
`verticesOverhangs` when overhang lengths are given (which is where an
unrecognized roof type raises), emits the ground ring, and then selects the
roof/wall constructor by an `if/elif` chain with **no** `else`: a roof type
matching no branch silently contributes no roof or wall surfaces. -/
def lod2SemanticsSurfaces (rtype : String) (o : Pt) (x y z h width : ℚ)
    (ovh : Option (ℚ × ℚ)) : Except String (List Ring) := do
  let pl := verticesBody o x y z none none none
  let p : Fin 8 → String := fun i => pl.getD i ""
  let rl := verticesRoof o x y z (some h) rtype (some width)
  let r0 := rl.getD 0 ""
  let r1 := rl.getD 1 ""
  let overhangs ← match ovh with
    | none => pure none
    | some (ovhx, ovhy) => do
        let res ← verticesOverhangs o x y z h rtype ovhx ovhy p r0 r1 width
        pure (some res)
  let ground := groundRing p
  let withOvh : List Ring → List Ring := fun faces =>
    match overhangs, ovh with
    | some res, some (ovhx, _) =>
        if ovhx > 0 then
          faces ++ res.overhangs ++ (res.interior.filterMap id)
        else faces
    | _, _ => faces
  if rtype = "Gabled" then
    pure (ground :: withOvh (gabledRoofRings p r0 r1))
  else if rtype = "Shed" then
    pure (ground :: withOvh (shedRoofRings p r0 r1))
  else if rtype = "Hipped" ∨ rtype = "Pyramidal" then
    pure (ground :: withOvh (hippedRoofRings p r0 r1))
  else if rtype = "Flat" then
    pure (ground :: withOvh (flatRoofRings p))
  else
    pure [ground]

/-!
## The GML string round-trip functions

`GMLstring2points`, `GMLreverser`, `multiGMLPointList` and
`GMLreversedRing` parse and re-emit the space-separated point strings.  For
these, a Python string is modelled as its character list (`PyStr`), which
makes Python's whitespace `split()` a structural recursion.
-/

/-- A Python string, as its list of characters. -/
abbrev PyStr := List Char

/-- Python's notion of whitespace for `str.split()`. -/
def pyWs (c : Char) : Bool :=
  c = ' ' || c = '\t' || c = '\n' || c = '\r' || c = '\x0b' || c = '\x0c'

/-- Worker for `str.split()` with no separator argument: `acc` holds the
(reversed) characters of the token currently being read. -/
def splitWsAux : List Char → List Char → List PyStr
  | [], acc => if acc.isEmpty then [] else [acc.reverse]
  | c :: cs, acc =>
    if pyWs c then
      if acc.isEmpty then splitWsAux cs [] else acc.reverse :: splitWsAux cs []
    else
      splitWsAux cs (c :: acc)

/-- `pointstring.split()`: split on runs of whitespace, dropping empty
tokens. -/
def pySplit (s : PyStr) : List PyStr := splitWsAux s []

/-- Grouping of the coordinate tokens three at a time, as the loop
`for i in range(0, len(coords), 3)` of `GMLstring2points` does; an
incomplete trailing group is impossible under the function's assertion. -/
def chunk3 : List α → List (List α)
  | a :: b :: c :: rest => [a, b, c] :: chunk3 rest
  | _ => []

/-- `GMLstring2points` (`generateCityGML.py` lines 445-454): split the
point string into coordinate tokens, assert the count is a multiple of
three, and group them into points (each a list of three coordinate
strings). -/
def GMLstring2points (pointstring : PyStr) : Except String (List (List PyStr)) :=
  let coords := pySplit pointstring
  if coords.length % 3 = 0 then .ok (chunk3 coords)
  else .error "AssertionError"

/-- `GMLreverser` (lines 457-460): `pointlist[::-1]`. -/
def GMLreverser (pointlist : List α) : List α := pointlist.reverse

/-- `GMLPointList` (lines 427-432) applied to a parsed point (a list of
coordinate strings): `"%s %s %s" % (point[0], point[1], point[2])`;
indexing a shorter list raises `IndexError`. -/
def GMLPointListTok (point : List PyStr) : Except String PyStr :=
  match point with
  | a :: b :: c :: _ => .ok (a ++ ' ' :: (b ++ ' ' :: c))
  | _ => .error "IndexError: list index out of range"

/-- The loop of `multiGMLPointList` (lines 437-441), with `l` the string
accumulated so far: for each point, append a separating space (when the
accumulator is non-empty) followed by the point's rendering. -/
def multiGMLPointListAux (l : PyStr) : List (List PyStr) → Except String PyStr
  | [] => .ok l
  | t :: ts => do
      let g ← GMLPointListTok t
      multiGMLPointListAux (if l.length > 0 then l ++ ' ' :: g else g) ts

/-- `multiGMLPointList` (lines 435-442): render all points, starting from
the empty string. -/
def multiGMLPointList (points : List (List PyStr)) : Except String PyStr :=
  multiGMLPointListAux [] points

/-- `GMLreversedRing` (lines 463-468): parse, reverse the point order,
re-emit. -/
def GMLreversedRing (r : PyStr) : Except String PyStr := do
  multiGMLPointList (GMLreverser (← GMLstring2points r))

/-- Joining a token list with single spaces, the normal form of a
well-formed point string (what `" ".join(tokens)` would produce). -/
def sepJoin : List PyStr → PyStr
  | [] => []
  | [t] => t
  | t :: ts => t ++ ' ' :: sepJoin ts

/-!
## Theorems for the claims
-/

/-- **C3.** For every origin `o` and positive sizes `x, y, z`, the eight
corners returned by `verticesBody` form an axis-aligned box in local space:
`p[1]-p[0] = (x,0,0)`, `p[3]-p[0] = (0,y,0)`, `p[4]-p[0] = (0,0,z')` with
`z'` the effective height after the height-mode adjustment (`z' = z` when
no `h`, `top` or `override` is supplied), and corners 4-7 sit directly
above corners 0-3.  Purity and freedom from side effects hold by
construction: `verticesBodyPts` is a total function of its arguments. -/
theorem verticesBody_box (o : Pt) (x y z : ℚ) (h top override : Option ℚ)
    (hx : 0 < x) (hy : 0 < y) (hz : 0 < z) :
    (verticesBodyPts o x y z h top override).length = 8 ∧
    (verticesBodyPts o x y z h top override).getD 1 (0, 0, 0) -
      (verticesBodyPts o x y z h top override).getD 0 (0, 0, 0) = (x, 0, 0) ∧
    (verticesBodyPts o x y z h top override).getD 3 (0, 0, 0) -
      (verticesBodyPts o x y z h top override).getD 0 (0, 0, 0) = (0, y, 0) ∧
    (verticesBodyPts o x y z h top override).getD 4 (0, 0, 0) -
      (verticesBodyPts o x y z h top override).getD 0 (0, 0, 0) =
      (0, 0, effectiveZ z h top override) ∧
    (∀ i : Fin 4, (verticesBodyPts o x y z h top override).getD (i + 4) (0, 0, 0) =
      (verticesBodyPts o x y z h top override).getD i (0, 0, 0) +
        (0, 0, effectiveZ z h top override)) ∧
    (h = none → top = none → override = none → effectiveZ z h top override = z) :=
  by
  refine ⟨rfl, ?_, ?_, ?_, ?_, ?_⟩
  · simp [verticesBodyPts, Prod.ext_iff]
  · simp [verticesBodyPts, Prod.ext_iff]
  · simp [verticesBodyPts, Prod.ext_iff]
  · intro i
    fin_cases i <;> simp [verticesBodyPts, Prod.ext_iff]
  · rintro rfl rfl rfl
    simp [effectiveZ]

/-- Witness for `verticesBody_box` at `o = (1,2,3)`, `x = 5`, `y = 4`,
`z = 6` with no height-mode arguments. -/
theorem verticesBody_box_witness :
    (0 : ℚ) < 5 ∧ (0 : ℚ) < 4 ∧ (0 : ℚ) < 6 ∧
    (verticesBodyPts ((1 : ℚ), (2 : ℚ), (3 : ℚ)) 5 4 6 none none none).getD 1 (0, 0, 0) -
      (verticesBodyPts ((1 : ℚ), (2 : ℚ), (3 : ℚ)) 5 4 6 none none none).getD 0 (0, 0, 0) =
      ((5 : ℚ), (0 : ℚ), (0 : ℚ)) :=
  ⟨by norm_num, by norm_num, by norm_num,
    (verticesBody_box ((1 : ℚ), (2 : ℚ), (3 : ℚ)) 5 4 6 none none none
      (by norm_num) (by norm_num) (by norm_num)).2.1⟩

/-- **C5.** For every Gabled roof, `verticesRoof` returns exactly the two
ridge points at `x = o.x + width/2`, one at each depth edge, at elevation
`h` above the original eave elevation (the `z`-coordinate of body corner
`p[4]` computed by `verticesBody` with no height arguments).  Since
`verticesRoof` consumes only the original box parameters — the corrected
eave produced later by `verticesOverhangs` is not among its inputs — the
ridge elevation is independent of the overhang projection by
construction. -/
theorem verticesRoof_gabled_ridge (o : Pt) (x y z hv : ℚ) (width : Option ℚ) :
    verticesRoofPts o x y z (some hv) "Gabled" width =
      [ (o.1 + (1/2) * x, o.2.1,
          ((verticesBodyPts o x y z none none none).getD 4 (0, 0, 0)).2.2 + hv),
        (o.1 + (1/2) * x, o.2.1 + y,
          ((verticesBodyPts o x y z none none none).getD 4 (0, 0, 0)).2.2 + hv) ] :=
  by
  simp [verticesRoofPts, verticesBodyPts, effectiveZ]

/-- **C8.** `rotator` changes only the `x` and `y` coordinates — the `z`
coordinate is returned untouched — and applying `rotator` again with sine
`-s` and cosine `c` about the same origin is the inverse, exactly, over
exact arithmetic, whenever `s² + c² = 1` (which is what the caller's
precomputed `sin θ`, `cos θ` satisfy; the second application is rotation by
`-θ` since `sin(-θ) = -sin θ`, `cos(-θ) = cos θ`). -/
theorem rotator_z_and_inverse (v : Pt) (s c : ℚ) (og : ℚ × ℚ) :
    (rotator v s c og).2.2 = v.2.2 ∧
    (s ^ 2 + c ^ 2 = 1 → rotator (rotator v s c og) (-s) c og = v) :=
  by
  refine ⟨rfl, fun hsc => ?_⟩
  obtain ⟨vx, vy, vz⟩ := v
  obtain ⟨ox, oy⟩ := og
  simp only [rotator, Prod.mk.injEq]
  refine ⟨?_, ?_, trivial⟩
  · linear_combination (vx - ox) * hsc
  · linear_combination (vy - oy) * hsc

/-- Witness for `rotator_z_and_inverse` with the Pythagorean pair
`s = 3/5`, `c = 4/5` at vertex `(1, 2, 5)` about origin `(10, 20)`. -/
theorem rotator_z_and_inverse_witness :
    ((3 / 5 : ℚ) ^ 2 + (4 / 5 : ℚ) ^ 2 = 1) ∧
    rotator (rotator ((1 : ℚ), (2 : ℚ), (5 : ℚ)) (3 / 5) (4 / 5) (10, 20))
      (-(3 / 5)) (4 / 5) (10, 20) = ((1 : ℚ), (2 : ℚ), (5 : ℚ)) :=
  ⟨by norm_num,
    (rotator_z_and_inverse ((1 : ℚ), (2 : ℚ), (5 : ℚ)) (3 / 5) (4 / 5)
      (10, 20)).2 (by norm_num)⟩

/-- **C7.** For every building with `floors ≥ 1`, the storey loop of
`CityGMLbuildingInteriorLOD2` emits exactly one slab solid per storey
`floor ∈ {1, …, floors}`, whose floor elevation is
`(floor-1)·floorHeight + joist/2`, whose ceiling elevation is
`floor·floorHeight - joist/2`, and whose horizontal extent is the
footprint inset by `wallThickness` on all four sides. -/
theorem interiorSlabs_per_storey (o : Pt) (x y fH wt j : ℚ) (floors : ℕ)
    (hfl : 1 ≤ floors) :
    (interiorSlabs o x y fH wt j floors).length = floors ∧
    (∀ fl : ℕ, 1 ≤ fl → fl ≤ floors →
      (interiorSlabs o x y fH wt j floors).getD (fl - 1) [] =
        [ (o.1 + wt,     o.2.1 + wt,     ((fl : ℚ) - 1) * fH + (1/2) * j),
          (o.1 + wt,     o.2.1 + wt,     (fl : ℚ) * fH - (1/2) * j),
          (o.1 + x - wt, o.2.1 + wt,     ((fl : ℚ) - 1) * fH + (1/2) * j),
          (o.1 + x - wt, o.2.1 + wt,     (fl : ℚ) * fH - (1/2) * j),
          (o.1 + x - wt, o.2.1 + y - wt, ((fl : ℚ) - 1) * fH + (1/2) * j),
          (o.1 + x - wt, o.2.1 + y - wt, (fl : ℚ) * fH - (1/2) * j),
          (o.1 + wt,     o.2.1 + y - wt, ((fl : ℚ) - 1) * fH + (1/2) * j),
          (o.1 + wt,     o.2.1 + y - wt, (fl : ℚ) * fH - (1/2) * j) ]) :=
  by
  refine ⟨by simp [interiorSlabs], fun fl h1 h2 => ?_⟩
  rw [interiorSlabs, List.getD_eq_getElem?_getD, List.getElem?_map,
    List.getElem?_range (by omega)]
  have hfl' : (fl - 1) + 1 = fl := by omega
  simp only [Option.map_some', Option.getD_some, hfl', interiorSlab]

/-- Witness for `interiorSlabs_per_storey`: a two-storey building of
footprint `10 × 8` at the origin, `floorHeight = 3`, `wallThickness = 1/5`,
`joist = 1/5`; storey 2 runs from elevation `31/10` to `59/10` on the inset
rectangle `[1/5, 49/5] × [1/5, 39/5]`. -/
theorem interiorSlabs_per_storey_witness :
    (1 ≤ 2) ∧
    (interiorSlabs ((0 : ℚ), (0 : ℚ), (0 : ℚ)) 10 8 3 (1/5) (1/5) 2).getD 1 [] =
      [ ((1/5 : ℚ), (1/5 : ℚ), (31/10 : ℚ)),
        (1/5, 1/5, 59/10),
        (49/5, 1/5, 31/10),
        (49/5, 1/5, 59/10),
        (49/5, 39/5, 31/10),
        (49/5, 39/5, 59/10),
        (1/5, 39/5, 31/10),
        (1/5, 39/5, 59/10) ] :=
  ⟨by norm_num, by
    have := (interiorSlabs_per_storey ((0 : ℚ), (0 : ℚ), (0 : ℚ)) 10 8 3 (1/5) (1/5) 2
      (by norm_num)).2 2 (by norm_num) (by norm_num)
    norm_num at this ⊢
    exact this⟩

/-- Branch-evaluation helper: the corrected eave elevation returned by the
`Gabled` branch of `verticesOverhangs`. -/
theorem verticesOverhangs_gabled_eaves_eq (o : Pt) (x y z h ovhx ovhy : ℚ)
    (p : Fin 8 → String) (r0 r1 : String) (w : ℚ) :
    (verticesOverhangs o x y z h "Gabled" ovhx ovhy p r0 r1 w).map
      OverhangResult.eaves =
      .ok (o.2.2 + z - (if 0 < ovhx then h / (((1/2) * x) / ovhx) else 0)) := rfl

/-- Branch-evaluation helper: the y-overhang returned by each branch of
`verticesOverhangs`: recalculated for `Hipped`/`Pyramidal`, the input
`ovhy` for `Gabled`, `Shed` and `Flat`. -/
theorem verticesOverhangs_ovhy_eq (o : Pt) (x y z h ovhx ovhy : ℚ)
    (p : Fin 8 → String) (r0 r1 : String) (width : ℚ) :
    (verticesOverhangs o x y z h "Hipped" ovhx ovhy p r0 r1 width).map
      OverhangResult.ovhyRecalculated =
      .ok (if 0 < ovhx then width / (h / (h / (((1/2) * x) / ovhx))) else 0) ∧
    (verticesOverhangs o x y z h "Pyramidal" ovhx ovhy p r0 r1 width).map
      OverhangResult.ovhyRecalculated =
      .ok (if 0 < ovhx then width / (h / (h / (((1/2) * x) / ovhx))) else 0) ∧
    (verticesOverhangs o x y z h "Gabled" ovhx ovhy p r0 r1 width).map
      OverhangResult.ovhyRecalculated = .ok ovhy ∧
    (verticesOverhangs o x y z h "Shed" ovhx ovhy p r0 r1 width).map
      OverhangResult.ovhyRecalculated = .ok ovhy ∧
    (verticesOverhangs o x y z h "Flat" ovhx ovhy p r0 r1 width).map
      OverhangResult.ovhyRecalculated = .ok ovhy :=
  ⟨rfl, rfl, rfl, rfl, rfl⟩

/-- **C2.** For every Gabled-roof building of width `x > 0` with rise `h`,
the overhang branch computes the projected eave drop
`ovhz = h·ovhx/(0.5·x)` (so `ovhz/h = ovhx/(0.5·x)` whenever `h ≠ 0`) and
returns the corrected eave elevation `o.z + z - ovhz`; when `ovhx = 0` the
drop is `0`.  The drop is exposed through the `eaves` field of the
result. -/
theorem verticesOverhangs_gabled_drop (o : Pt) (x y z h ovhx ovhy : ℚ)
    (p : Fin 8 → String) (r0 r1 : String) (w : ℚ) (hx : 0 < x) :
    (0 < ovhx →
      (verticesOverhangs o x y z h "Gabled" ovhx ovhy p r0 r1 w).map
        OverhangResult.eaves = .ok (o.2.2 + z - h * ovhx / ((1/2) * x)) ∧
      (h ≠ 0 →
        ((o.2.2 + z) - (o.2.2 + z - h * ovhx / ((1/2) * x))) / h =
          ovhx / ((1/2) * x))) ∧
    (ovhx = 0 →
      (verticesOverhangs o x y z h "Gabled" ovhx ovhy p r0 r1 w).map
        OverhangResult.eaves = .ok (o.2.2 + z)) :=
  by
  constructor
  · intro hovhx
    constructor
    · rw [verticesOverhangs_gabled_eaves_eq, if_pos hovhx, div_div_eq_mul_div]
    · intro hh
      field_simp
      ring
  · intro h0
    subst h0
    rw [verticesOverhangs_gabled_eaves_eq]
    norm_num

/-- Witness for `verticesOverhangs_gabled_drop`: the concrete scenario of
the spec — width `6`, rise `h = 2`, overhang `ovhx = 1/2`, eave height `6`
at the origin — yields corrected eaves `6 - 1/3 = 17/3`, i.e. an eave drop
of `2·(1/2)/3 = 1/3`. -/
theorem verticesOverhangs_gabled_drop_witness :
    ((0 : ℚ) < 6) ∧ ((0 : ℚ) < 1/2) ∧
    (verticesOverhangs ((0 : ℚ), (0 : ℚ), (0 : ℚ)) 6 5 6 2 "Gabled" (1/2) (3/10)
      (fun _ => "") "" "" 0).map OverhangResult.eaves = .ok (17/3 : ℚ) :=
  ⟨by norm_num, by norm_num, by
    have := ((verticesOverhangs_gabled_drop ((0 : ℚ), (0 : ℚ), (0 : ℚ)) 6 5 6 2 (1/2)
      (3/10) (fun _ => "") "" "" 0 (by norm_num)).1 (by norm_num)).1
    rw [this]
    norm_num⟩

/-- **C4.** For a Hipped or Pyramidal roof with `ovhx > 0` (and
non-degenerate `x > 0`, `h ≠ 0`), `verticesOverhangs` discards the input
`ovhy` and returns the recalculated y-overhang
`width·ovhx/(0.5·x) = width·ovhz/h`; when `ovhx = 0` it returns `0`, again
discarding the input.  For Gabled, Shed and Flat roofs the returned
`ovhy_recalculated` is the input `ovhy` unchanged. -/
theorem verticesOverhangs_ovhy_recalculated (o : Pt) (x y z h ovhx ovhy : ℚ)
    (p : Fin 8 → String) (r0 r1 : String) (width : ℚ)
    (hx : 0 < x) (hh : h ≠ 0) :
    (∀ rt : String, rt = "Hipped" ∨ rt = "Pyramidal" →
      (0 < ovhx →
        (verticesOverhangs o x y z h rt ovhx ovhy p r0 r1 width).map
          OverhangResult.ovhyRecalculated =
          .ok (width * ovhx / ((1/2) * x)) ∧
        width * ovhx / ((1/2) * x) =
          width * (h * ovhx / ((1/2) * x)) / h) ∧
      (ovhx = 0 →
        (verticesOverhangs o x y z h rt ovhx ovhy p r0 r1 width).map
          OverhangResult.ovhyRecalculated = .ok 0)) ∧
    (verticesOverhangs o x y z h "Gabled" ovhx ovhy p r0 r1 width).map
      OverhangResult.ovhyRecalculated = .ok ovhy ∧
    (verticesOverhangs o x y z h "Shed" ovhx ovhy p r0 r1 width).map
      OverhangResult.ovhyRecalculated = .ok ovhy ∧
    (verticesOverhangs o x y z h "Flat" ovhx ovhy p r0 r1 width).map
      OverhangResult.ovhyRecalculated = .ok ovhy :=
  by
  obtain ⟨hH, hP, hG, hS, hF⟩ :=
    verticesOverhangs_ovhy_eq o x y z h ovhx ovhy p r0 r1 width
  have hx' : x ≠ 0 := ne_of_gt hx
  refine ⟨fun rt hrt => ?_, hG, hS, hF⟩
  have hval : ∀ hx2 : 0 < ovhx,
      (if 0 < ovhx then width / (h / (h / (((1/2) * x) / ovhx))) else 0) =
        width * ovhx / ((1/2) * x) := by
    intro hx2
    rw [if_pos hx2]
    have h2 : ovhx ≠ 0 := ne_of_gt hx2
    field_simp
    ring
  rcases hrt with rfl | rfl
  · exact ⟨fun hx2 => ⟨by rw [hH, hval hx2], by field_simp; ring⟩,
      fun h0 => by subst h0; rw [hH]; norm_num⟩
  · exact ⟨fun hx2 => ⟨by rw [hP, hval hx2], by field_simp; ring⟩,
      fun h0 => by subst h0; rw [hP]; norm_num⟩

/-- Witness for `verticesOverhangs_ovhy_recalculated`: a Hipped roof with
width `6`, rise `2`, ridge-to-eave width `2` and `ovhx = 1/2` recalculates
the y-overhang to `2·(1/2)/3 = 1/3`, ignoring the input `ovhy = 9/10`. -/
theorem verticesOverhangs_ovhy_recalculated_witness :
    ((0 : ℚ) < 6) ∧ ((2 : ℚ) ≠ 0) ∧ ((0 : ℚ) < 1/2) ∧
    (verticesOverhangs ((0 : ℚ), (0 : ℚ), (0 : ℚ)) 6 5 6 2 "Hipped" (1/2) (9/10)
      (fun _ => "") "" "" 2).map OverhangResult.ovhyRecalculated =
      .ok (1/3 : ℚ) :=
  ⟨by norm_num, by norm_num, by norm_num, by
    have := (((verticesOverhangs_ovhy_recalculated ((0 : ℚ), (0 : ℚ), (0 : ℚ)) 6 5 6 2
      (1/2) (9/10) (fun _ => "") "" "" 2 (by norm_num) (by norm_num)).1
      "Hipped" (Or.inl rfl)).1 (by norm_num)).1
    rw [this]
    norm_num⟩

/-- **C9.** The guard of `chimneyVertices` meant to skip unpopulated
vertex sets compares the 8-element list `d` against a 6-element empty
template, so it is always true; consequently, for every chimney whose
`(roof type, side)` pair has no handled branch — side 0 or 2 on a Gabled,
Shed or Flat roof, or side 3 on a Shed or Flat roof — the function calls
`GMLPointList` on an empty vertex list and raises `IndexError` instead of
returning geometry or skipping the chimney. -/
theorem chimney_guard_always_true_and_index_error
    (p : Fin 8 → Pt) (oX oY sX sY cH h x : ℚ) (side : ℤ) :
    (∀ d : List RawVtx, d.length = 8 → d ≠ emptyTemplate6) ∧
    ((side = 0 ∨ side = 2) →
      chimneyProcess "Gabled" side p oX oY sX sY cH h x =
        .error "IndexError: list index out of range" ∧
      chimneyProcess "Shed" side p oX oY sX sY cH h x =
        .error "IndexError: list index out of range" ∧
      chimneyProcess "Flat" side p oX oY sX sY cH h x =
        .error "IndexError: list index out of range") ∧
    (side = 3 →
      chimneyProcess "Shed" side p oX oY sX sY cH h x =
        .error "IndexError: list index out of range" ∧
      chimneyProcess "Flat" side p oX oY sX sY cH h x =
        .error "IndexError: list index out of range") :=
  by
  refine ⟨fun d hlen hcontra => ?_, ?_, ?_⟩
  · have : d.length = emptyTemplate6.length := by rw [hcontra]
    simp [emptyTemplate6, hlen] at this
  · rintro (rfl | rfl) <;> exact ⟨rfl, rfl, rfl⟩
  · rintro rfl
    exact ⟨rfl, rfl⟩

/-- Witness for `chimney_guard_always_true_and_index_error`: a chimney on
side 0 of a Gabled roof raises `IndexError`. -/
theorem chimney_guard_witness :
    ((0 : ℤ) = 0 ∨ (0 : ℤ) = 2) ∧
    chimneyProcess "Gabled" 0 (fun _ => ((0 : ℚ), (0 : ℚ), (0 : ℚ)))
      1 1 1 1 2 2 6 = .error "IndexError: list index out of range" :=
  ⟨Or.inl rfl,
    ((chimney_guard_always_true_and_index_error
      (fun _ => ((0 : ℚ), (0 : ℚ), (0 : ℚ))) 1 1 1 1 2 2 6 0).2.1
      (Or.inl rfl)).1⟩

/-- **C6 (amended).** An unrecognized opening wall index does raise an
unrecoverable `ValueError` in `openingRing` and `embrasuresGeometry`.  An
unrecognized roof type, however, does **not** abort the LOD2 roof-surface
construction by itself: the `if/elif` dispatch has no `else` branch
(`elif rtype == 'Flat' or None` is just `rtype == 'Flat'`), so the
building is emitted with its ground surface and no roof or wall surfaces
and no error; an error (`UnboundLocalError` inside `verticesOverhangs`) is
raised only when overhang lengths are supplied. -/
theorem unknown_wall_raises_unknown_rtype_silent :
    (∀ (wall : ℤ) (X Y w hgt e : ℚ) (p : Fin 8 → Pt),
      wall ≠ 0 → wall ≠ 1 → wall ≠ 2 → wall ≠ 3 →
      openingRing wall X Y w hgt p =
        .error "ValueError: The door is positioned on an unknown wall." ∧
      embrasureRings wall X Y w hgt e p =
        .error "ValueError: The door is positioned on an unknown wall.") ∧
    (∀ (rtype : String) (o : Pt) (x y z h width : ℚ),
      rtype ≠ "Flat" → rtype ≠ "Shed" → rtype ≠ "Gabled" →
      rtype ≠ "Hipped" → rtype ≠ "Pyramidal" →
      lod2SemanticsSurfaces rtype o x y z h width none =
        .ok [groundRing (fun i => (verticesBody o x y z none none none).getD i "")] ∧
      (∀ ovhx ovhy : ℚ,
        lod2SemanticsSurfaces rtype o x y z h width (some (ovhx, ovhy)) =
          .error "UnboundLocalError: local variable referenced before assignment")) :=
  by
  constructor
  · intro wall X Y w hgt e p h0 h1 h2 h3
    constructor
    · simp only [openingRing, if_neg h0, if_neg h1, if_neg h2, if_neg h3]
    · simp only [embrasureRings, if_neg h0, if_neg h1, if_neg h2, if_neg h3]
  · intro rtype o x y z h width hF hS hG hH hP
    have hHP : ¬(rtype = "Hipped" ∨ rtype = "Pyramidal") := not_or.mpr ⟨hH, hP⟩
    constructor
    · simp only [lod2SemanticsSurfaces, if_neg hF, if_neg hS, if_neg hG,
        if_neg hHP, Bind.bind, Except.bind, Pure.pure, Except.pure]
    · intro ovhx ovhy
      simp only [lod2SemanticsSurfaces, verticesOverhangs, if_neg hF,
        if_neg hS, if_neg hG, if_neg hHP, Bind.bind, Except.bind,
        Pure.pure, Except.pure]

/-- Witness for `unknown_wall_raises_unknown_rtype_silent`: wall index 4
raises `ValueError`, and roof type `"Domed"` with overhangs requested
raises `UnboundLocalError` while without overhangs it silently emits only
the ground surface. -/
theorem unknown_wall_unknown_rtype_witness :
    openingRing 4 1 1 1 1 (fun _ => ((0 : ℚ), (0 : ℚ), (0 : ℚ))) =
      .error "ValueError: The door is positioned on an unknown wall." ∧
    lod2SemanticsSurfaces "Domed" ((0 : ℚ), (0 : ℚ), (0 : ℚ)) 5 4 6 2 1
      (some (1/2, 3/10)) =
      .error "UnboundLocalError: local variable referenced before assignment" :=
  ⟨((unknown_wall_raises_unknown_rtype_silent.1 4 1 1 1 1 1
      (fun _ => ((0 : ℚ), (0 : ℚ), (0 : ℚ)))
      (by decide) (by decide) (by decide) (by decide)).1),
    ((unknown_wall_raises_unknown_rtype_silent.2 "Domed"
      ((0 : ℚ), (0 : ℚ), (0 : ℚ)) 5 4 6 2 1
      (by decide) (by decide) (by decide) (by decide) (by decide)).2
      (1/2) (3/10))⟩

/-- **C6 counterexample.** The claim that an unrecognized roof type makes
the roof-surface construction abort "with an error rather than producing
output" is false: for roof type `"Domed"` with no overhangs, the LOD2
construction returns successfully, emitting the ground surface (and
nothing else). -/
theorem unknown_rtype_no_error_counterexample :
    lod2SemanticsSurfaces "Domed" ((0 : ℚ), (0 : ℚ), (0 : ℚ)) 5 4 6 2 1 none =
      .ok [["0 0 0", "0 4 0", "5 4 0", "5 0 0", "0 0 0"]] :=
  by
  have h1 : ("Domed" : String) ≠ "Gabled" := by decide
  have h2 : ("Domed" : String) ≠ "Shed" := by decide
  have h3 : ("Domed" : String) ≠ "Flat" := by decide
  have h4 : ¬(("Domed" : String) = "Hipped" ∨ ("Domed" : String) = "Pyramidal") := by decide
  simp only [lod2SemanticsSurfaces, if_neg h1, if_neg h2, if_neg h3, if_neg h4,
    Bind.bind, Except.bind, Pure.pure, Except.pure, groundRing, verticesBody,
    verticesBodyPts, effectiveZ, GMLPointListQ, fmtQ, Option.getD_none,
    List.map_cons, List.map_nil]
  norm_num [List.getD]
  decide

/-- **C1.** Every linear ring emitted by the geometry constructors — wall,
roof and ground rings of the four roof-type constructors, building-part
rings, overhang and overhang-interior rings, opening rings, embrasure
rings, interior-slab rings and attic rings — is closed: its first point is
literally repeated as its last point, with identical coordinate text in
the emitted `posList` (the rings are lists of point texts; the emitted
`posList` is their space-join). -/
theorem emitted_rings_closed :
    (∀ p : Fin 8 → String, ∀ r ∈ flatRoofRings p, ringClosed r) ∧
    (∀ (p : Fin 8 → String) (r0 r1 : String),
      ∀ r ∈ gabledRoofRings p r0 r1, ringClosed r) ∧
    (∀ (p : Fin 8 → String) (r0 r1 : String),
      ∀ r ∈ shedRoofRings p r0 r1, ringClosed r) ∧
    (∀ (p : Fin 8 → String) (r0 r1 : String),
      ∀ r ∈ hippedRoofRings p r0 r1, ringClosed r) ∧
    (∀ p bp : Fin 8 → String, ∀ r ∈ eastFacesRings p bp, ringClosed r) ∧
    (∀ p : Fin 8 → String, ringClosed (groundRing p)) ∧
    (∀ (o : Pt) (x y z h ovhx ovhy : ℚ) (rtype : String) (p : Fin 8 → String)
      (r0 r1 : String) (w : ℚ) (res : OverhangResult),
      verticesOverhangs o x y z h rtype ovhx ovhy p r0 r1 w = .ok res →
      (∀ r ∈ res.overhangs, ringClosed r) ∧
      (∀ ri ∈ res.interior, ∀ r, ri = some r → ringClosed r)) ∧
    (∀ (wall : ℤ) (X Y w hgt : ℚ) (p : Fin 8 → Pt) (ring : Ring),
      openingRing wall X Y w hgt p = .ok ring → ringClosed ring) ∧
    (∀ (wall : ℤ) (X Y w hgt e : ℚ) (p : Fin 8 → Pt) (rs : List Ring),
      embrasureRings wall X Y w hgt e p = .ok rs → ∀ r ∈ rs, ringClosed r) ∧
    (∀ (Xa Ya Xb Yb fel cel wt : ℚ) (r0 r1 : Pt),
      ∀ r ∈ gabledAtticRings Xa Ya Xb Yb fel cel wt r0 r1, ringClosed r) ∧
    (∀ (Xa Ya Xb Yb fel cel wt : ℚ) (r0 r1 : Pt),
      ∀ r ∈ hippedAtticRings Xa Ya Xb Yb fel cel wt r0 r1, ringClosed r) ∧
    (∀ (Xa Ya Xb Yb fel cel : ℚ) (r0 : Pt),
      ∀ r ∈ pyramidalAtticRings Xa Ya Xb Yb fel cel r0, ringClosed r) ∧
    (∀ (Xa Ya Xb Yb fel cel wt : ℚ) (r0 r1 : Pt),
      ∀ r ∈ shedAtticRings Xa Ya Xb Yb fel cel wt r0 r1, ringClosed r) ∧
    (∀ p0F p1F p2F p3F p0C p1C p2C p3C : String,
      ∀ r ∈ slabRings p0F p1F p2F p3F p0C p1C p2C p3C, ringClosed r) :=
  by
  refine ⟨?_, ?_, ?_, ?_, ?_, ?_, ?_, ?_, ?_, ?_, ?_, ?_, ?_, ?_⟩
  · intro p r hr
    simp only [flatRoofRings, List.mem_cons, List.not_mem_nil, or_false] at hr
    rcases hr with rfl | rfl | rfl | rfl | rfl <;> rfl
  · intro p r0 r1 r hr
    simp only [gabledRoofRings, List.mem_cons, List.not_mem_nil, or_false] at hr
    rcases hr with rfl | rfl | rfl | rfl | rfl | rfl <;> rfl
  · intro p r0 r1 r hr
    simp only [shedRoofRings, List.mem_cons, List.not_mem_nil, or_false] at hr
    rcases hr with rfl | rfl | rfl | rfl | rfl <;> rfl
  · intro p r0 r1 r hr
    by_cases h01 : r0 = r1 <;>
      simp only [hippedRoofRings, if_pos, if_neg, h01, if_true, if_false,
        List.cons_append, List.nil_append, List.mem_cons, List.not_mem_nil,
        or_false] at hr <;>
      rcases hr with rfl | rfl | rfl | rfl | rfl | rfl | rfl | rfl <;> rfl
  · intro p bp r hr
    simp only [eastFacesRings, List.mem_cons, List.not_mem_nil, or_false] at hr
    rcases hr with rfl | rfl | rfl | rfl | rfl | rfl <;> rfl
  · intro p
    rfl
  · intro o x y z h ovhx ovhy rtype p r0 r1 w res hres
    unfold verticesOverhangs at hres
    split_ifs at hres <;>
      simp only [Except.ok.injEq, reduceCtorEq] at hres <;>
      subst hres <;>
      constructor <;>
      · intro ri hri
        simp only [List.mem_cons, List.not_mem_nil, or_false] at hri
        first
        | (rcases hri with rfl | rfl | rfl | rfl <;> rfl)
        | (rcases hri with rfl | rfl | rfl | rfl <;>
            (intro r hr; simp only [Option.some.injEq, reduceCtorEq] at hr;
             try subst hr; try rfl))
  · intro wall X Y w hgt p ring hres
    unfold openingRing at hres
    split_ifs at hres <;>
      simp only [Except.ok.injEq, reduceCtorEq] at hres <;>
      subst hres <;> rfl
  · intro wall X Y w hgt e p rs hres
    unfold embrasureRings at hres
    split_ifs at hres <;>
      simp only [Except.ok.injEq, reduceCtorEq] at hres <;>
      subst hres <;>
      · intro r hr
        simp only [List.mem_cons, List.not_mem_nil, or_false] at hr
        rcases hr with rfl | rfl | rfl | rfl | rfl <;> rfl
  · intro Xa Ya Xb Yb fel cel wt r0 r1 r hr
    simp only [gabledAtticRings, List.mem_cons, List.not_mem_nil, or_false] at hr
    rcases hr with rfl | rfl | rfl | rfl | rfl <;> rfl
  · intro Xa Ya Xb Yb fel cel wt r0 r1 r hr
    simp only [hippedAtticRings, List.mem_cons, List.not_mem_nil, or_false] at hr
    rcases hr with rfl | rfl | rfl | rfl | rfl <;> rfl
  · intro Xa Ya Xb Yb fel cel r0 r hr
    simp only [pyramidalAtticRings, List.mem_cons, List.not_mem_nil, or_false] at hr
    rcases hr with rfl | rfl | rfl | rfl | rfl <;> rfl
  · intro Xa Ya Xb Yb fel cel wt r0 r1 r hr
    simp only [shedAtticRings, List.mem_cons, List.not_mem_nil, or_false] at hr
    rcases hr with rfl | rfl | rfl | rfl | rfl <;> rfl
  · intro p0F p1F p2F p3F p0C p1C p2C p3C r hr
    simp only [slabRings, List.mem_cons, List.not_mem_nil, or_false] at hr
    rcases hr with rfl | rfl | rfl | rfl | rfl | rfl <;> rfl

/-- Witness for `emitted_rings_closed`: the top face of a flat roof over
the constant corner labelling is a member of the emitted rings and is
closed. -/
theorem emitted_rings_closed_witness :
    (["a", "a", "a", "a", "a"] : Ring) ∈ flatRoofRings (fun _ => "a") ∧
    ringClosed ["a", "a", "a", "a", "a"] :=
  ⟨by decide,
    emitted_rings_closed.1 (fun _ => "a") ["a", "a", "a", "a", "a"] (by decide)⟩

/-- Unfolding equation of the split worker on the empty list. -/
theorem splitWsAux_nil (acc : List Char) :
    splitWsAux [] acc = if acc.isEmpty then [] else [acc.reverse] := rfl

/-- Unfolding equation of the split worker on a cons. -/
theorem splitWsAux_cons (c : Char) (cs acc : List Char) :
    splitWsAux (c :: cs) acc =
      if pyWs c then
        if acc.isEmpty then splitWsAux cs [] else acc.reverse :: splitWsAux cs []
      else splitWsAux cs (c :: acc) := rfl

/-- Tokens produced by the split worker are non-empty and contain no
whitespace, provided the accumulator contains none. -/
theorem splitWsAux_tokens (cs : List Char) : ∀ acc : List Char,
    (∀ c ∈ acc, pyWs c = false) →
    ∀ t ∈ splitWsAux cs acc, t ≠ [] ∧ ∀ c ∈ t, pyWs c = false := by
  induction cs with
  | nil =>
    intro acc hacc t ht
    rw [splitWsAux_nil] at ht
    by_cases h0 : acc.isEmpty
    · simp [h0] at ht
    · simp only [h0, Bool.false_eq_true, if_false, List.mem_singleton] at ht
      subst ht
      refine ⟨?_, fun c hc => hacc c (List.mem_reverse.mp hc)⟩
      simp only [List.isEmpty_iff] at h0
      simpa using h0
  | cons c cs ih =>
    intro acc hacc t ht
    rw [splitWsAux_cons] at ht
    by_cases hws : pyWs c = true
    · simp only [hws, if_true] at ht
      by_cases h0 : acc.isEmpty
      · simp only [h0, if_true] at ht
        exact ih [] (by simp) t ht
      · simp only [h0, Bool.false_eq_true, if_false, List.mem_cons] at ht
        rcases ht with rfl | ht
        · refine ⟨?_, fun d hd => hacc d (List.mem_reverse.mp hd)⟩
          simp only [List.isEmpty_iff] at h0
          simpa using h0
        · exact ih [] (by simp) t ht
    · simp only [hws, Bool.false_eq_true, if_false] at ht
      refine ih (c :: acc) ?_ t ht
      intro d hd
      rcases List.mem_cons.mp hd with rfl | hd
      · simpa using hws
      · exact hacc d hd

/-- Feeding a whitespace-free token into the split worker just extends the
accumulator. -/
theorem splitWsAux_token_append (t : List Char)
    (ht : ∀ c ∈ t, pyWs c = false) :
    ∀ cs acc : List Char,
      splitWsAux (t ++ cs) acc = splitWsAux cs (t.reverse ++ acc) := by
  induction t with
  | nil => intro cs acc; simp
  | cons c t ih =>
    intro cs acc
    have hc : pyWs c = false := ht c (List.mem_cons_self c t)
    have ht' : ∀ d ∈ t, pyWs d = false := fun d hd => ht d (List.mem_cons_of_mem c hd)
    rw [List.cons_append, splitWsAux_cons, hc]
    simp only [Bool.false_eq_true, if_false]
    rw [ih ht' cs (c :: acc)]
    simp [List.reverse_cons, List.append_assoc]

/-- Splitting the single-space join of non-empty whitespace-free tokens
recovers the tokens. -/
theorem pySplit_sepJoin (ts : List PyStr)
    (h : ∀ t ∈ ts, t ≠ [] ∧ ∀ c ∈ t, pyWs c = false) :
    pySplit (sepJoin ts) = ts := by
  induction ts with
  | nil => rfl
  | cons t ts ih =>
    obtain ⟨htne, htws⟩ := h t (List.mem_cons_self t ts)
    have h' : ∀ u ∈ ts, u ≠ [] ∧ ∀ c ∈ u, pyWs c = false :=
      fun u hu => h u (List.mem_cons_of_mem t hu)
    cases ts with
    | nil =>
      show pySplit (sepJoin [t]) = [t]
      unfold pySplit
      rw [show sepJoin [t] = t ++ [] by simp [sepJoin],
        splitWsAux_token_append t htws [] [], splitWsAux_nil,
        if_neg (by simp [List.isEmpty_iff, htne])]
      simp
    | cons u ts' =>
      show pySplit (sepJoin (t :: u :: ts')) = t :: u :: ts'
      unfold pySplit
      rw [show sepJoin (t :: u :: ts') = t ++ ' ' :: sepJoin (u :: ts') from rfl,
        splitWsAux_token_append t htws _ [], splitWsAux_cons,
        if_pos (show pyWs ' ' = true from rfl),
        if_neg (by simp [List.isEmpty_iff, htne])]
      have hih := ih h'
      unfold pySplit at hih
      rw [hih]
      simp

/-- Every group produced by `chunk3` has exactly three elements. -/
theorem chunk3_mem_length {α : Type} : ∀ (l : List α), ∀ g ∈ chunk3 l, g.length = 3
  | a :: b :: c :: rest, g, hg => by
    simp only [chunk3, List.mem_cons] at hg
    rcases hg with rfl | hg
    · rfl
    · exact chunk3_mem_length rest g hg
  | [], g, hg => by simp [chunk3] at hg
  | [a], g, hg => by simp [chunk3] at hg
  | [a, b], g, hg => by simp [chunk3] at hg

/-- When the length is a multiple of three, `chunk3` loses nothing. -/
theorem flatten_chunk3 {α : Type} : ∀ (l : List α), l.length % 3 = 0 →
    (chunk3 l).flatten = l
  | [], _ => rfl
  | [a], h => by simp at h
  | [a, b], h => by simp at h
  | a :: b :: c :: rest, h => by
    have h' : rest.length % 3 = 0 := by
      simp only [List.length_cons] at h; omega
    show a :: b :: c :: (chunk3 rest).flatten = _
    rw [flatten_chunk3 rest h']

/-- `chunk3` is a left inverse of `flatten` on lists of three-element
groups. -/
theorem chunk3_flatten {α : Type} : ∀ (gs : List (List α)),
    (∀ g ∈ gs, g.length = 3) → chunk3 gs.flatten = gs
  | [], _ => rfl
  | g :: gs, h => by
    obtain ⟨a, b, c, rfl⟩ :=
      List.length_eq_three.mp (h g (List.mem_cons_self g gs))
    show chunk3 (a :: b :: c :: gs.flatten) = _
    rw [show chunk3 (a :: b :: c :: gs.flatten) = [a, b, c] :: chunk3 gs.flatten
        from rfl,
      chunk3_flatten gs (fun u hu => h u (List.mem_cons_of_mem _ hu))]

/-- The flatten of three-element groups has length a multiple of three. -/
theorem flatten3_mod {α : Type} : ∀ (gs : List (List α)),
    (∀ g ∈ gs, g.length = 3) → gs.flatten.length % 3 = 0
  | [], _ => rfl
  | g :: gs, h => by
    have h3 := h g (List.mem_cons_self g gs)
    have := flatten3_mod gs (fun u hu => h u (List.mem_cons_of_mem _ hu))
    simp only [List.flatten_cons, List.length_append, h3]
    omega

/-- Running the render loop on complete three-token groups, starting from
a non-empty accumulator, appends the single-space join of the tokens. -/
theorem multiAux_chunk3 : ∀ (ts : List PyStr) (l : PyStr),
    ts.length % 3 = 0 → l ≠ [] →
    multiGMLPointListAux l (chunk3 ts) =
      .ok (if ts.isEmpty then l else l ++ ' ' :: sepJoin ts)
  | [], l, _, _ => by simp [chunk3, multiGMLPointListAux]
  | [a], l, h, _ => by simp at h
  | [a, b], l, h, _ => by simp at h
  | a :: b :: c :: rest, l, h3, hl => by
    have h' : rest.length % 3 = 0 := by
      simp only [List.length_cons] at h3; omega
    have hl' : l.length > 0 := List.length_pos.mpr hl
    show multiGMLPointListAux l ([a, b, c] :: chunk3 rest) = _
    rw [multiGMLPointListAux]
    simp only [GMLPointListTok, Bind.bind, Except.bind]
    rw [if_pos hl', multiAux_chunk3 rest _ h' (by simp)]
    cases rest with
    | nil => simp [sepJoin]
    | cons d rest' => simp [sepJoin, List.append_assoc]

/-- The render loop inverts `chunk3` up to the single-space join. -/
theorem multi_chunk3 : ∀ ts : List PyStr, ts.length % 3 = 0 →
    multiGMLPointList (chunk3 ts) = .ok (sepJoin ts)
  | [], _ => rfl
  | [a], h => by simp at h
  | [a, b], h => by simp at h
  | a :: b :: c :: rest, h3 => by
    have h' : rest.length % 3 = 0 := by
      simp only [List.length_cons] at h3; omega
    show multiGMLPointListAux [] ([a, b, c] :: chunk3 rest) = _
    rw [multiGMLPointListAux]
    simp only [GMLPointListTok, Bind.bind, Except.bind, List.length_nil,
      gt_iff_lt, lt_self_iff_false, if_false]
    rw [multiAux_chunk3 rest _ h' (by simp)]
    cases rest with
    | nil => simp [sepJoin]
    | cons d rest' => simp [sepJoin, List.append_assoc]

/-- **C10.** For every well-formed ring string — coordinate count a
multiple of three, tokens separated by single spaces (`sepJoin` of its own
tokens) — ring reversal is an involution:
`GMLreversedRing (GMLreversedRing s) = s`; point-list reversal
`GMLreverser` is an involution on every list; and the round-trip
`multiGMLPointList (GMLstring2points s) = s` reproduces the input. -/
theorem gml_ring_roundtrip (s : PyStr)
    (h3 : (pySplit s).length % 3 = 0)
    (hjoin : sepJoin (pySplit s) = s) :
    ((GMLreversedRing s).bind GMLreversedRing = .ok s) ∧
    (∀ l : List (List PyStr), GMLreverser (GMLreverser l) = l) ∧
    ((GMLstring2points s).bind multiGMLPointList = .ok s) := by
  have htok : ∀ t ∈ pySplit s, t ≠ [] ∧ ∀ c ∈ t, pyWs c = false :=
    splitWsAux_tokens s [] (by simp)
  have hs2p : GMLstring2points s = .ok (chunk3 (pySplit s)) := by
    unfold GMLstring2points
    rw [if_pos h3]
  have hlen3 : ∀ g ∈ (chunk3 (pySplit s)).reverse, g.length = 3 := fun g hg =>
    chunk3_mem_length (pySplit s) g (List.mem_reverse.mp hg)
  have hts' : chunk3 ((chunk3 (pySplit s)).reverse.flatten) =
      (chunk3 (pySplit s)).reverse := chunk3_flatten _ hlen3
  have h3' : ((chunk3 (pySplit s)).reverse.flatten).length % 3 = 0 :=
    flatten3_mod _ hlen3
  have hrev1 : GMLreversedRing s =
      .ok (sepJoin ((chunk3 (pySplit s)).reverse.flatten)) := by
    unfold GMLreversedRing
    rw [hs2p]
    simp only [Bind.bind, Except.bind, GMLreverser]
    rw [show (chunk3 (pySplit s)).reverse =
        chunk3 ((chunk3 (pySplit s)).reverse.flatten) from hts'.symm,
      multi_chunk3 _ h3']
    rw [hts']
  have htok' : ∀ t ∈ (chunk3 (pySplit s)).reverse.flatten,
      t ≠ [] ∧ ∀ c ∈ t, pyWs c = false := by
    intro t ht
    obtain ⟨g, hg, htg⟩ := List.mem_flatten.mp ht
    refine htok t ?_
    rw [← flatten_chunk3 _ h3]
    exact List.mem_flatten.mpr ⟨g, List.mem_reverse.mp hg, htg⟩
  have hsplit' : pySplit (sepJoin ((chunk3 (pySplit s)).reverse.flatten)) =
      (chunk3 (pySplit s)).reverse.flatten := pySplit_sepJoin _ htok'
  refine ⟨?_, fun l => by simp [GMLreverser], ?_⟩
  · rw [hrev1]
    simp only [Except.bind]
    unfold GMLreversedRing
    unfold GMLstring2points
    rw [hsplit', if_pos h3']
    simp only [Bind.bind, Except.bind, GMLreverser]
    rw [hts', List.reverse_reverse, multi_chunk3 _ h3, hjoin]
  · rw [hs2p]
    simp only [Except.bind]
    rw [multi_chunk3 _ h3, hjoin]

/-- Witness for `gml_ring_roundtrip`: the two-point ring string
`"1 2 3 4 5 6"` satisfies both well-formedness hypotheses, and reversing
it twice reproduces it. -/
theorem gml_ring_roundtrip_witness :
    (pySplit "1 2 3 4 5 6".toList).length % 3 = 0 ∧
    sepJoin (pySplit "1 2 3 4 5 6".toList) = "1 2 3 4 5 6".toList ∧
    (GMLreversedRing "1 2 3 4 5 6".toList).bind GMLreversedRing =
      .ok "1 2 3 4 5 6".toList :=
  ⟨by decide, by decide,
    (gml_ring_roundtrip "1 2 3 4 5 6".toList (by decide) (by decide)).1⟩

end R3C
